import Mathlib

/-!
Shallow embedding of the BLE scanner component
(`src/src/components/BleScanner.tsx`, with `src/unnamed/part_000` as a
near-duplicate variant).  The React `useState` cells become the fields of
`ScannerState`; each event handler becomes a pure function from the state
(plus an environment describing how the platform's asynchronous calls
resolve during that invocation) to the new state, paired with the list of
observable platform effects it performs (writes, disconnects, scheduled
banner clears, status transitions).  Opaque platform handles
(`BluetoothDevice`, `BluetoothRemoteGATTCharacteristic`) are modelled as
`Nat` identifiers.  The platform is assumed deterministic within a single
invocation (the two `getPrimaryServices()` calls of one run resolve to the
same list).
-/

namespace BleScanner

/-- The `ConnectionStatus` union type of the source. -/
inductive ConnectionStatus where
  | idle
  | connecting
  | connected
  | failed
  | disconnected
deriving DecidableEq, Repr

/-- The `BleDevice` interface: `device` is the opaque platform handle. -/
structure BleDevice where
  id : String
  name : String
  device : Nat
deriving DecidableEq, Repr

/-- The four capability flags recorded per characteristic. -/
structure CharProps where
  read : Bool
  write : Bool
  writeWithoutResponse : Bool
  notify : Bool
deriving DecidableEq, Repr

/-- The `CharacteristicInfo` interface: `characteristic` is the opaque handle. -/
structure CharacteristicInfo where
  uuid : String
  serviceUuid : String
  properties : CharProps
  characteristic : Nat
deriving DecidableEq, Repr

/-- The `DeviceInfo` interface; optional TS fields become `Option`. -/
structure DeviceInfo where
  services : List String
  batteryLevel : Option Nat
  rssi : Option Nat
  manufacturer : Option String
  modelNumber : Option String
  serialNumber : Option String
  hardwareRevision : Option String
  firmwareRevision : Option String
  softwareRevision : Option String
  allCharacteristics : List CharacteristicInfo
deriving DecidableEq, Repr

/-- A thrown JS value: either an `Error` instance (with `name` and `message`)
or some non-`Error` value. -/
inductive JsError where
  | jsError (name : String) (message : String)
  | nonError
deriving DecidableEq, Repr

/-- The component state: one field per `useState` cell of `BleScanner`.
`selectedCharacteristic` holds the opaque characteristic handle. -/
structure ScannerState where
  devices : List BleDevice
  isScanning : Bool
  error : Option String
  selectedDevice : Option BleDevice
  connectionStatus : ConnectionStatus
  isSupported : Bool
  deviceInfo : Option DeviceInfo
  isLoadingInfo : Bool
  isSending : Bool
  sendStatus : Option String
  selectedCharacteristic : Option Nat
deriving DecidableEq, Repr

/-- Observable platform effects performed by a handler invocation. -/
inductive Effect where
  | statusSet (s : ConnectionStatus)
  | writeValue (char : Nat) (data : List Nat)
  | gattDisconnect
  | addDisconnectListener
  | scheduleClearSendStatus (delayMs : Nat)
deriving DecidableEq, Repr

/-- UTF-8 encoding of one code point (what `TextEncoder.encode` does per char). -/
def utf8Char (c : Char) : List Nat :=
  let n := c.toNat
  if n < 128 then [n]
  else if n < 2048 then [192 + n / 64, 128 + n % 64]
  else if n < 65536 then [224 + n / 4096, 128 + (n / 64) % 64, 128 + n % 64]
  else [240 + n / 262144, 128 + (n / 4096) % 64, 128 + (n / 64) % 64, 128 + n % 64]

/-- `new TextEncoder().encode(value)` as a list of byte values. -/
def utf8Encode (s : String) : List Nat :=
  s.data.foldr (fun c acc => utf8Char c ++ acc) []

/-- JS `a || b` on an optional string: `undefined`/`null` and `""` are falsy. -/
def jsStringOr (a : Option String) (b : String) : String :=
  match a with
  | none => b
  | some s => if s = "" then b else s

/-- The `setDevices` updater of `scanForDevices`: append unless an entry
with the same `id` is already present. -/
def appendDevice (prev : List BleDevice) (d : BleDevice) : List BleDevice :=
  if prev.any (fun x => x.id = d.id) then prev else prev ++ [d]

/-- The device handle resolved by `navigator.bluetooth.requestDevice`
(`name` is `string | undefined` on the platform type). -/
structure RawDevice where
  id : String
  name : Option String
  handle : Nat

/-- `scanForDevices`.  `bluetoothAvailable` is `!!navigator.bluetooth`;
`request` is how the `requestDevice` promise settles (`.ok none` models a
falsy resolved value, which the source guards with `if (device)`). -/
def scanForDevices (st : ScannerState) (bluetoothAvailable : Bool)
    (request : Except JsError (Option RawDevice)) : ScannerState :=
  if !bluetoothAvailable then
    { st with error := some "Web Bluetooth API is not available" }
  else
    let st1 := { st with isScanning := true, error := none, devices := [] }
    let st2 :=
      match request with
      | Except.ok none => st1
      | Except.ok (some dev) =>
          let bleDevice : BleDevice :=
            { id := dev.id, name := jsStringOr dev.name "Unknown Device",
              device := dev.handle }
          { st1 with devices := appendDevice st1.devices bleDevice }
      | Except.error (JsError.jsError n msg) =>
          if n = "NotFoundError" then
            { st1 with error := some "No device selected. Please try scanning again." }
          else if n = "SecurityError" then
            { st1 with error := some "Bluetooth access denied. Please check: (1) Bluetooth is enabled on your device, (2) You're on HTTPS or localhost, (3) Reset site permissions by clicking the lock icon in the address bar → Site settings → Bluetooth → Ask (default)." }
          else
            { st1 with error := some ("Error scanning for devices: " ++ msg) }
      | Except.error JsError.nonError =>
          { st1 with error := some "An unknown error occurred while scanning" }
    { st2 with isScanning := false }

/-- A characteristic handle as enumerated on the platform. -/
structure RawCharacteristic where
  uuid : String
  props : CharProps
  handle : Nat

/-- One primary service: its uuid and how its `getCharacteristics()` call
settles (`none` models a rejection, which the source swallows per service). -/
structure ServiceData where
  uuid : String
  characteristics : Option (List RawCharacteristic)

/-- How the six `device_information` string reads settle. -/
structure DeviceInfoReads where
  manufacturer : Except JsError String
  modelNumber : Except JsError String
  serialNumber : Except JsError String
  hardwareRevision : Except JsError String
  firmwareRevision : Except JsError String
  softwareRevision : Except JsError String

/-- Environment of one `getDeviceInformation` run: how each platform call
settles.  `battery` collapses the battery service lookup, characteristic
lookup and read; an error in any of them is an error here. -/
structure InfoEnv where
  services : Except JsError (List ServiceData)
  battery : Except JsError Nat
  deviceInfoReads : Except JsError DeviceInfoReads

/-- `readCharacteristic`: resolves to the decoded string, or `null` (`none`)
when any step throws. -/
def readCharacteristic (r : Except JsError String) : Option String :=
  match r with
  | Except.ok s => some s
  | Except.error _ => none

/-- The `|| undefined` applied to each `readCharacteristic` result:
`null` and `""` both become `undefined`. -/
def jsOrUndefined (o : Option String) : Option String :=
  match o with
  | some s => if s = "" then none else some s
  | none => none

/-- One `device_information` field: `readCharacteristic` then `|| undefined`,
skipped entirely when the service lookup rejected. -/
def readField (dr : Option DeviceInfoReads)
    (f : DeviceInfoReads → Except JsError String) : Option String :=
  match dr with
  | some r => jsOrUndefined (readCharacteristic (f r))
  | none => none

/-- `getAllCharacteristics`: services in platform order, characteristics
within each service in platform order; a per-service rejection skips that
service; a top-level rejection yields the empty list. -/
def getAllCharacteristics (services : Except JsError (List ServiceData)) :
    List CharacteristicInfo :=
  match services with
  | Except.error _ => []
  | Except.ok svcs =>
      svcs.foldl
        (fun acc svc =>
          match svc.characteristics with
          | none => acc
          | some chars =>
              acc ++ chars.map (fun c =>
                { uuid := c.uuid, serviceUuid := svc.uuid,
                  properties := c.props, characteristic := c.handle }))
        []

/-- The writable-characteristic test used by the auto-select `find`. -/
def isWritable (c : CharacteristicInfo) : Bool :=
  c.properties.write || c.properties.writeWithoutResponse

/-- `getDeviceInformation`: returns the built `DeviceInfo` together with the
`setSelectedCharacteristic` argument (`some handle` when a writable
characteristic was found, `none` when the setter was not called).  When the
top-level `getPrimaryServices` rejects, the outer catch leaves the initial
`info` untouched and nothing else runs. -/
def getDeviceInformation (env : InfoEnv) : DeviceInfo × Option Nat :=
  match env.services with
  | Except.error _ =>
      ({ services := [], batteryLevel := none, rssi := none,
         manufacturer := none, modelNumber := none, serialNumber := none,
         hardwareRevision := none, firmwareRevision := none,
         softwareRevision := none, allCharacteristics := [] }, none)
  | Except.ok svcs =>
      let allChars := getAllCharacteristics (Except.ok svcs)
      let writable := allChars.find? (fun c => isWritable c)
      let batteryLevel :=
        match env.battery with
        | Except.ok b => some b
        | Except.error _ => none
      let dr :=
        match env.deviceInfoReads with
        | Except.ok r => some r
        | Except.error _ => none
      ({ services := svcs.map (fun s => s.uuid),
         batteryLevel := batteryLevel,
         rssi := none,
         manufacturer := readField dr (fun r => r.manufacturer),
         modelNumber := readField dr (fun r => r.modelNumber),
         serialNumber := readField dr (fun r => r.serialNumber),
         hardwareRevision := readField dr (fun r => r.hardwareRevision),
         firmwareRevision := readField dr (fun r => r.firmwareRevision),
         softwareRevision := readField dr (fun r => r.softwareRevision),
         allCharacteristics := allChars },
       Option.map (fun c => c.characteristic) writable)

/-- The GATT server handle: only its `connected` flag is inspected. -/
structure Server where
  connected : Bool

/-- Environment of one `connectToDevice` run. `gattPresent` is whether
`device.gatt` is defined; `connectResult` is how `gatt.connect()` settles;
`gattConnectedAtCheck` is the value of `device.gatt?.connected` read by the
failure-path disconnect guards. -/
structure ConnectEnv where
  gattPresent : Bool
  connectResult : Except JsError Server
  gattConnectedAtCheck : Bool
  info : InfoEnv

/-- The `handleDisconnect` closure installed as the
`gattserverdisconnected` listener. -/
def handleDisconnect (st : ScannerState) : ScannerState :=
  { st with connectionStatus := ConnectionStatus.disconnected,
            error := some "Device disconnected. Click 'Connect' to reconnect.",
            deviceInfo := none,
            selectedDevice := none }

/-- `connectToDevice`. -/
def connectToDevice (st : ScannerState) (d : BleDevice) (env : ConnectEnv) :
    ScannerState × List Effect :=
  let st0 :=
    { st with connectionStatus := ConnectionStatus.connecting,
              error := none, selectedDevice := some d,
              deviceInfo := none, isLoadingInfo := true }
  let eff0 := [Effect.statusSet ConnectionStatus.connecting]
  let discEffs :=
    if env.gattPresent && env.gattConnectedAtCheck then [Effect.gattDisconnect]
    else []
  let serverOpt : Except JsError (Option Server) :=
    if env.gattPresent then
      match env.connectResult with
      | Except.ok s => Except.ok (some s)
      | Except.error e => Except.error e
    else Except.ok none
  match serverOpt with
  | Except.ok (some srv) =>
      if srv.connected then
        let r := getDeviceInformation env.info
        ({ st0 with connectionStatus := ConnectionStatus.connected,
                    deviceInfo := some r.1,
                    isLoadingInfo := false,
                    selectedCharacteristic :=
                      match r.2 with
                      | some h => some h
                      | none => st0.selectedCharacteristic },
         eff0 ++ [Effect.statusSet ConnectionStatus.connected,
                  Effect.addDisconnectListener])
      else
        ({ st0 with connectionStatus := ConnectionStatus.failed,
                    error := some "Failed to establish GATT connection",
                    isLoadingInfo := false },
         eff0 ++ [Effect.statusSet ConnectionStatus.failed] ++ discEffs)
  | Except.ok none =>
      ({ st0 with connectionStatus := ConnectionStatus.failed,
                  error := some "Failed to establish GATT connection",
                  isLoadingInfo := false },
       eff0 ++ [Effect.statusSet ConnectionStatus.failed] ++ discEffs)
  | Except.error e =>
      ({ st0 with connectionStatus := ConnectionStatus.failed,
                  isLoadingInfo := false,
                  error := some (match e with
                    | JsError.jsError _ msg => "Connection failed: " ++ msg
                    | JsError.nonError => "Failed to connect to device") },
       eff0 ++ [Effect.statusSet ConnectionStatus.failed] ++ discEffs)

/-- `disconnectFromDevice`: guarded on
`selectedDevice?.device?.gatt?.connected`; `gattConnected` is that chained
read (the whole chain is falsy when `selectedDevice` is `null`). -/
def disconnectFromDevice (st : ScannerState) (gattConnected : Bool) :
    ScannerState × List Effect :=
  match st.selectedDevice with
  | some _ =>
      if gattConnected then
        ({ st with connectionStatus := ConnectionStatus.disconnected,
                   selectedDevice := none, deviceInfo := none,
                   error := none, sendStatus := none },
         [Effect.gattDisconnect, Effect.statusSet ConnectionStatus.disconnected])
      else (st, [])
  | none => (st, [])

/-- `sendDataToDevice`. `writeResult` is how the `writeValue` promise
settles (only consulted when a characteristic is selected and the write is
actually issued). -/
def sendDataToDevice (st : ScannerState) (writeResult : Except JsError Unit)
    (value : String) : ScannerState × List Effect :=
  match st.selectedCharacteristic with
  | none =>
      ({ st with sendStatus := some "❌ No characteristic selected" },
       [Effect.scheduleClearSendStatus 3000])
  | some ch =>
      let st1 := { st with isSending := true, sendStatus := none }
      match writeResult with
      | Except.ok _ =>
          ({ st1 with sendStatus := some ("✅ Sent: " ++ value),
                      isSending := false },
           [Effect.writeValue ch (utf8Encode value),
            Effect.scheduleClearSendStatus 3000])
      | Except.error (JsError.jsError _ msg) =>
          ({ st1 with sendStatus := some ("❌ Error: " ++ msg),
                      isSending := false },
           [Effect.writeValue ch (utf8Encode value),
            Effect.scheduleClearSendStatus 5000])
      | Except.error JsError.nonError =>
          ({ st1 with sendStatus := some "❌ Failed to send data",
                      isSending := false },
           [Effect.writeValue ch (utf8Encode value),
            Effect.scheduleClearSendStatus 5000])

/-- Projection of the banner-clear delay out of an effect. -/
def clearDelay : Effect → Option Nat
  | Effect.scheduleClearSendStatus d => some d
  | _ => none

/-- Whether an effect is a platform write call. -/
def isWriteEffect : Effect → Bool
  | Effect.writeValue _ _ => true
  | _ => false

/-- A concrete discovered device, used as fixture in closed theorems. -/
def dev1 : BleDevice :=
  { id := "dev-1", name := "piggybank1", device := 1 }

/-- A fixture state holding one discovered device, nothing selected. -/
def stWithDevice : ScannerState :=
  { devices := [dev1], isScanning := false, error := none,
    selectedDevice := none, connectionStatus := ConnectionStatus.idle,
    isSupported := true, deviceInfo := none, isLoadingInfo := false,
    isSending := false, sendStatus := none, selectedCharacteristic := none }

/-- A fixture state for a connected session with characteristic handle 7
selected. -/
def stWithChar : ScannerState :=
  { devices := [dev1], isScanning := false, error := none,
    selectedDevice := some dev1,
    connectionStatus := ConnectionStatus.connected,
    isSupported := true, deviceInfo := none, isLoadingInfo := false,
    isSending := false, sendStatus := none,
    selectedCharacteristic := some 7 }

/-- C1: after the platform fires the disconnect event, the registered
handler sets `connectionStatus` to `disconnected`, clears `selectedDevice`
and clears the `deviceInfo` snapshot. -/
theorem handleDisconnect_resets_session (st : ScannerState) :
    (handleDisconnect st).connectionStatus = ConnectionStatus.disconnected ∧
    (handleDisconnect st).selectedDevice = none ∧
    (handleDisconnect st).deviceInfo = none :=
  ⟨rfl, rfl, rfl⟩

/-- C2 counterexample: a user-cancelled scan (`NotFoundError`) does not
leave a nonempty device list unchanged — `scanForDevices` clears the list
at the start of every call, so the list ends up empty. -/
theorem scan_cancel_counterexample :
    (scanForDevices stWithDevice true
        (Except.error (JsError.jsError "NotFoundError" "User cancelled"))).devices
      ≠ stWithDevice.devices := by
  decide

/-- C2 amended: a user-cancelled scan leaves the device list empty (the
list is cleared at the start of the call, and nothing is re-added), sets
the informational message "No device selected. Please try scanning
again.", and leaves the scanning flag false when the call completes. -/
theorem scan_cancel_amended (st : ScannerState) (msg : String) :
    (scanForDevices st true
        (Except.error (JsError.jsError "NotFoundError" msg))).devices = [] ∧
    (scanForDevices st true
        (Except.error (JsError.jsError "NotFoundError" msg))).error =
      some "No device selected. Please try scanning again." ∧
    (scanForDevices st true
        (Except.error (JsError.jsError "NotFoundError" msg))).isScanning = false := by
  refine ⟨?_, ?_, ?_⟩ <;> simp [scanForDevices]

/-- `TextEncoder` sends `"0"` to the single byte `0x30`. -/
lemma utf8Encode_zero : utf8Encode "0" = [48] := by decide

/-- C3 counterexample: on a successful `sendData("0")` the banner text is
`"✅ Sent: 0"`, not `"Sent: 0"` as claimed. -/
theorem send_zero_banner_counterexample :
    (sendDataToDevice stWithChar (Except.ok ()) "0").1.sendStatus ≠
      some "Sent: 0" := by
  decide

/-- C3 amended: `sendData("0")` with a selected characteristic encodes
`"0"` as its UTF-8 bytes `[0x30]`, issues exactly one platform write call
carrying those bytes, and on success sets the banner to `"✅ Sent: 0"`
(the sent value prefixed by the success marker), scheduled to clear after
the fixed 3000 ms success delay. -/
theorem send_zero_success (st : ScannerState) (ch : Nat)
    (h : st.selectedCharacteristic = some ch) :
    (sendDataToDevice st (Except.ok ()) "0").2 =
      [Effect.writeValue ch [48], Effect.scheduleClearSendStatus 3000] ∧
    ((sendDataToDevice st (Except.ok ()) "0").2.filter isWriteEffect).length = 1 ∧
    (sendDataToDevice st (Except.ok ()) "0").1.sendStatus = some "✅ Sent: 0" := by
  refine ⟨?_, ?_, ?_⟩ <;>
    simp [sendDataToDevice, h, utf8Encode_zero, isWriteEffect]

/-- C3 witness: the amended theorem applied at the fixture state. -/
theorem send_zero_success_witness :
    stWithChar.selectedCharacteristic = some 7 ∧
    (sendDataToDevice stWithChar (Except.ok ()) "0").1.sendStatus =
      some "✅ Sent: 0" :=
  ⟨rfl, (send_zero_success stWithChar 7 rfl).2.2⟩

/-- C4: `sendData` with no characteristic selected sets an immediate
user-visible error banner, issues zero platform write calls, and leaves
the sending flag untouched. -/
theorem send_no_characteristic (st : ScannerState)
    (wr : Except JsError Unit) (v : String)
    (h : st.selectedCharacteristic = none) :
    (sendDataToDevice st wr v).1.sendStatus =
      some "❌ No characteristic selected" ∧
    ((sendDataToDevice st wr v).2.filter isWriteEffect).length = 0 ∧
    (sendDataToDevice st wr v).1.isSending = st.isSending := by
  refine ⟨?_, ?_, ?_⟩ <;> simp [sendDataToDevice, h, isWriteEffect]

/-- C4 witness: the theorem applied at the fixture state. -/
theorem send_no_characteristic_witness :
    stWithDevice.selectedCharacteristic = none ∧
    (sendDataToDevice stWithDevice (Except.ok ()) "1").1.sendStatus =
      some "❌ No characteristic selected" :=
  ⟨rfl, (send_no_characteristic stWithDevice (Except.ok ()) "1" rfl).1⟩

/-- C6 counterexample: not every failure path schedules the 5000 ms clear —
the no-characteristic failure banner is scheduled to clear after 3000 ms. -/
theorem send_delay_counterexample :
    (sendDataToDevice stWithDevice (Except.ok ()) "1").1.sendStatus =
      some "❌ No characteristic selected" ∧
    (sendDataToDevice stWithDevice (Except.ok ()) "1").2 =
      [Effect.scheduleClearSendStatus 3000] ∧
    Effect.scheduleClearSendStatus 5000 ∉
      (sendDataToDevice stWithDevice (Except.ok ()) "1").2 := by
  decide

/-- C6 amended: every `sendData` invocation schedules exactly one one-shot
banner clear; its delay is 3000 ms for the success banner, 5000 ms for a
write-failure banner, and 3000 ms (not 5000 ms) for the
missing-characteristic failure banner. -/
theorem send_delay_amended (st : ScannerState)
    (wr : Except JsError Unit) (v : String) :
    (sendDataToDevice st wr v).2.filterMap clearDelay =
      [match st.selectedCharacteristic, wr with
       | none, _ => 3000
       | some _, Except.ok _ => 3000
       | some _, Except.error _ => 5000] := by
  cases h : st.selectedCharacteristic with
  | none => simp [sendDataToDevice, h, clearDelay]
  | some ch =>
      cases wr with
      | ok u => simp [sendDataToDevice, h, clearDelay]
      | error e => cases e <;> simp [sendDataToDevice, h, clearDelay]

/-- An info environment in which every platform call rejects. -/
def infoEnvErr : InfoEnv :=
  { services := Except.error JsError.nonError,
    battery := Except.error JsError.nonError,
    deviceInfoReads := Except.error JsError.nonError }

/-- A connect environment whose `gatt.connect()` call throws. -/
def envThrow : ConnectEnv :=
  { gattPresent := true,
    connectResult :=
      Except.error (JsError.jsError "NetworkError" "GATT Server is disconnected"),
    gattConnectedAtCheck := true,
    info := infoEnvErr }

/-- C5: when `gatt.connect()` throws, the attempt ends `failed`, the status
trace never contains `connected`, a disconnect call is issued whenever the
platform still reports the device connected, and the error is surfaced as
a user-visible message. -/
theorem connect_throw_fails (st : ScannerState) (d : BleDevice)
    (env : ConnectEnv) (e : JsError)
    (h1 : env.gattPresent = true)
    (h2 : env.connectResult = Except.error e) :
    (connectToDevice st d env).1.connectionStatus = ConnectionStatus.failed ∧
    Effect.statusSet ConnectionStatus.connected ∉ (connectToDevice st d env).2 ∧
    (env.gattConnectedAtCheck = true →
      Effect.gattDisconnect ∈ (connectToDevice st d env).2) ∧
    (∀ n m, e = JsError.jsError n m →
      (connectToDevice st d env).1.error = some ("Connection failed: " ++ m)) ∧
    (e = JsError.nonError →
      (connectToDevice st d env).1.error = some "Failed to connect to device") := by
  cases hc : env.gattConnectedAtCheck <;> cases e <;>
    simp [connectToDevice, h1, h2, hc]

/-- C5 witness: the theorem applied to a concrete throwing connect. -/
theorem connect_throw_fails_witness :
    envThrow.gattPresent = true ∧
    envThrow.connectResult =
      Except.error (JsError.jsError "NetworkError" "GATT Server is disconnected") ∧
    (connectToDevice stWithDevice dev1 envThrow).1.connectionStatus =
      ConnectionStatus.failed :=
  ⟨rfl, rfl,
    (connect_throw_fails stWithDevice dev1 envThrow
      (JsError.jsError "NetworkError" "GATT Server is disconnected") rfl rfl).1⟩

/-- C7: appending an already-present device id is a no-op, discovering the
same id twice yields a one-element list, and the append preserves
distinctness of ids in the device list. -/
theorem appendDevice_dedup (prev : List BleDevice) (d d2 : BleDevice) :
    (prev.any (fun x => x.id = d.id) = true → appendDevice prev d = prev) ∧
    (d2.id = d.id → appendDevice (appendDevice [] d) d2 = [d]) ∧
    ((prev.map (fun x => x.id)).Nodup →
      ((appendDevice prev d).map (fun x => x.id)).Nodup) := by
  refine ⟨?_, ?_, ?_⟩
  · intro h
    simp [appendDevice, h]
  · intro h
    simp [appendDevice, h]
  · intro hnd
    cases hany : prev.any (fun x => x.id = d.id) with
    | true => simpa [appendDevice, hany] using hnd
    | false =>
        have hnotin : d.id ∉ prev.map (fun x => x.id) := by
          intro hmem
          rcases List.mem_map.mp hmem with ⟨x, hx, hxid⟩
          have h1 := (List.any_eq_false.mp hany) x hx
          simp only [decide_eq_true_eq] at h1
          exact h1 hxid
        have hif : appendDevice prev d = prev ++ [d] := by
          simp [appendDevice, hany]
        rw [hif, List.map_append]
        refine List.Nodup.append hnd (List.nodup_singleton _) ?_
        intro a ha hb
        simp only [List.map_cons, List.map_nil, List.mem_singleton] at hb
        exact hnotin (hb ▸ ha)

/-- C7 witness: the no-op part applied at a concrete duplicate. -/
theorem appendDevice_dedup_witness :
    [dev1].any (fun x => x.id = dev1.id) = true ∧
    appendDevice [dev1] dev1 = [dev1] :=
  ⟨by decide, (appendDevice_dedup [dev1] dev1 dev1).1 (by decide)⟩

/-- C8: when the battery read rejects, the gathered info equals the info
gathered with any other battery outcome, except that `batteryLevel` is
absent; the selected-characteristic result is unchanged as well. -/
theorem battery_absent_frame (env : InfoEnv) (e : JsError) :
    getDeviceInformation { env with battery := Except.error e } =
      ({ (getDeviceInformation env).1 with batteryLevel := none },
       (getDeviceInformation env).2) := by
  cases hs : env.services <;> simp [getDeviceInformation, hs]

/-- First-match characterization of `List.find?` used by the auto-select. -/
lemma find?_append_first {α : Type} (p : α → Bool) (pre : List α) (c : α)
    (post : List α) (hpre : ∀ a ∈ pre, p a = false) (hc : p c = true) :
    (pre ++ c :: post).find? p = some c := by
  induction pre with
  | nil => simp [List.find?_cons, hc]
  | cons a as ih =>
      have ha : p a = false := hpre a (List.mem_cons_self a as)
      simp only [List.cons_append, List.find?_cons, ha]
      exact ih (fun x hx => hpre x (List.mem_cons_of_mem a hx))

/-- C9: if, after enumeration, `c` is the first characteristic in
enumeration order with the write or writeWithoutResponse capability, then
the selected characteristic is set to `c`'s handle. -/
theorem selects_first_writable (env : InfoEnv) (svcs : List ServiceData)
    (hs : env.services = Except.ok svcs)
    (pre post : List CharacteristicInfo) (c : CharacteristicInfo)
    (hsplit : (getDeviceInformation env).1.allCharacteristics = pre ++ c :: post)
    (hpre : ∀ a ∈ pre, isWritable a = false)
    (hc : isWritable c = true) :
    (getDeviceInformation env).2 = some c.characteristic := by
  have h2 : (getDeviceInformation env).2 =
      Option.map (fun x => x.characteristic)
        (((getDeviceInformation env).1.allCharacteristics).find?
          (fun x => isWritable x)) := by
    simp [getDeviceInformation, hs]
  rw [h2, hsplit, find?_append_first (fun x => isWritable x) pre c post hpre hc]
  rfl

/-- A concrete writable characteristic and its enumeration record. -/
def char1 : RawCharacteristic :=
  { uuid := "c-1",
    props := { read := false, write := true,
               writeWithoutResponse := false, notify := false },
    handle := 7 }

/-- The enumeration record produced for `char1` in service `s-1`. -/
def charInfo1 : CharacteristicInfo :=
  { uuid := "c-1", serviceUuid := "s-1",
    properties := { read := false, write := true,
                    writeWithoutResponse := false, notify := false },
    characteristic := 7 }

/-- A concrete service exposing only `char1`. -/
def svc1 : ServiceData :=
  { uuid := "s-1", characteristics := some [char1] }

/-- An info environment enumerating exactly `char1`. -/
def infoEnv1 : InfoEnv :=
  { services := Except.ok [svc1],
    battery := Except.error JsError.nonError,
    deviceInfoReads := Except.error JsError.nonError }

/-- C9 witness: the theorem applied to a one-characteristic enumeration. -/
theorem selects_first_writable_witness :
    infoEnv1.services = Except.ok [svc1] ∧
    (getDeviceInformation infoEnv1).2 = some 7 :=
  ⟨rfl,
    selects_first_writable infoEnv1 [svc1] rfl [] [] charInfo1 rfl
      (by intro a ha; exact absurd ha (List.not_mem_nil a)) rfl⟩

/-- An info environment that enumerates no characteristics at all. -/
def infoEnvNoWritable : InfoEnv :=
  { services := Except.ok [],
    battery := Except.error JsError.nonError,
    deviceInfoReads := Except.error JsError.nonError }

/-- A connect environment that succeeds but finds no writable
characteristic. -/
def envNoWritable : ConnectEnv :=
  { gattPresent := true,
    connectResult := Except.ok { connected := true },
    gattConnectedAtCheck := false,
    info := infoEnvNoWritable }

/-- C10: when info gathering finds no writable characteristic,
`connectToDevice` keeps the previously selected characteristic; neither the
disconnect-event handler nor the manual disconnect clears it; and a later
`sendData` with that stale handle still issues a platform write to it. -/
theorem stale_characteristic_retained (st : ScannerState) (d : BleDevice)
    (env : ConnectEnv) (g : Bool) (wr : Except JsError Unit) (ch : Nat)
    (hnw : (getDeviceInformation env.info).2 = none)
    (hch : st.selectedCharacteristic = some ch) :
    (connectToDevice st d env).1.selectedCharacteristic =
      st.selectedCharacteristic ∧
    (handleDisconnect st).selectedCharacteristic = st.selectedCharacteristic ∧
    (disconnectFromDevice st g).1.selectedCharacteristic =
      st.selectedCharacteristic ∧
    ∃ data, Effect.writeValue ch data ∈ (sendDataToDevice st wr "1").2 := by
  refine ⟨?_, rfl, ?_, ?_⟩
  · cases hg : env.gattPresent with
    | false => simp [connectToDevice, hg]
    | true =>
        cases hr : env.connectResult with
        | error e => simp [connectToDevice, hg, hr]
        | ok srv =>
            cases hcn : srv.connected <;>
              simp [connectToDevice, hg, hr, hcn, hnw]
  · cases hsel : st.selectedDevice with
    | none => simp [disconnectFromDevice, hsel]
    | some dv => cases g <;> simp [disconnectFromDevice, hsel]
  · refine ⟨utf8Encode "1", ?_⟩
    cases wr with
    | ok u => simp [sendDataToDevice, hch]
    | error e => cases e <;> simp [sendDataToDevice, hch]

/-- C10 witness: the theorem applied to a concrete no-writable connect. -/
theorem stale_characteristic_retained_witness :
    (getDeviceInformation envNoWritable.info).2 = none ∧
    stWithChar.selectedCharacteristic = some 7 ∧
    (connectToDevice stWithChar dev1 envNoWritable).1.selectedCharacteristic =
      stWithChar.selectedCharacteristic :=
  ⟨rfl, rfl,
    (stale_characteristic_retained stWithChar dev1 envNoWritable true
      (Except.ok ()) 7 rfl rfl).1⟩

end BleScanner
